import Mathlib

/-!
A shallow embedding of `src/dns_security_suite.py` (SecuDNS-Suite).

External collaborators (the dnspython resolver `dns.resolver.resolve`, the
zone-transfer client `dns.query.xfr`/`dns.zone.from_xfr`, the filesystem and
the possibility of an unexpected exception escaping a worker task) are
modelled as oracle fields of an `Env` record.  Every function below is a
direct translation of a function of the source file; line numbers of the
source are given in the doc comments.
-/

namespace DnsSuite

/-- The nine DNS record types queried by `analyze_dns_records`
(source line 37: `types = ['A','AAAA','MX','TXT','NS','CNAME','SOA','SRV','PTR']`). -/
inductive RecordType
  | A | AAAA | MX | TXT | NS | CNAME | SOA | SRV | PTR
  deriving DecidableEq, Repr

/-- The list of the nine types, in the order the source iterates them. -/
def recordTypes : List RecordType :=
  [.A, .AAAA, .MX, .TXT, .NS, .CNAME, .SOA, .SRV, .PTR]

/-- A Python value as stored in the per-type records list: the source stores
strings for every rendered field except the SOA serial, which is stored as the
raw integer `soa.serial` (source line 53 applies `str(...)` to `mname` and
`rname` but not to `serial`). -/
inductive PyVal
  | str (s : String)
  | int (n : Nat)
  deriving DecidableEq, Repr

/-- Whether a stored value is a string (used to state the spec's
"ordered sequence of formatted strings"). -/
def PyVal.isStr : PyVal → Bool
  | .str _ => true
  | .int _ => false

/-- One answer of a DNS query, carrying exactly the attributes the source
reads.  `target` stands for the textual form of `r.target` (the source uses
both `str(r.target)` and `r.target.to_text()`, which coincide for a
dnspython name); `text` stands for `r.to_text()` of a TXT answer. -/
structure Answer where
  address : String
  exchange : String
  text : String
  target : String
  mname : String
  rname : String
  serial : Nat
  priority : Nat
  weight : Nat
  port : Nat
  deriving DecidableEq, Repr

/-- Outcome stored per record type: the source stores a list of values on
success and the string `f"Error: {e}"` on any exception (lines 59-60). -/
inductive RecordQueryOutcome
  | success (values : List PyVal)
  | failure (reason : String)
  deriving DecidableEq, Repr

/-- The external world:
* `resolve` models `dns.resolver.resolve(domain, rtype)` — an answer list or
  the message of the raised exception;
* `xfr` models the whole `dns.zone.from_xfr(dns.query.xfr(nameserver, domain,
  timeout=5))` followed by `zone.to_text().splitlines()` — the serialized
  zone lines when the server permits the transfer, or the message of the
  exception raised anywhere in that pipeline (refused, timeout, connection
  error, malformed response);
* `taskCrash` models an unexpected exception escaping a worker task and
  re-raised by `future.result()` (caught at source line 181): `some e` means
  the task for that domain raises with message `e`;
* `fileExists` / `fileLines` model `os.path.exists` and reading the
  inventory file. -/
structure Env where
  resolve : String → RecordType → Except String (List Answer)
  xfr : String → String → Except String (List String)
  taskCrash : String → Option String
  fileExists : String → Bool
  fileLines : String → List String

/-- Per-type rendering of a successful answer list, following the
`if`/`elif` chain of source lines 41-57.  The SOA branch reads `answers[0]`,
which raises `IndexError` on an empty answer list — that exception is caught
by the same `except` block, so it is returned here as an error message. -/
def formatAnswers (rtype : RecordType) (answers : List Answer) :
    Except String (List PyVal) :=
  match rtype with
  | .A => .ok (answers.map (fun r => .str r.address))
  | .AAAA => .ok (answers.map (fun r => .str r.address))
  | .MX => .ok (answers.map (fun r => .str r.exchange))
  | .TXT => .ok (answers.map (fun r => .str r.text))
  | .NS => .ok (answers.map (fun r => .str r.target))
  | .CNAME => .ok (answers.map (fun r => .str r.target))
  | .SOA =>
    match answers with
    | [] => .error "list index out of range"
    | soa :: _ => .ok [.str soa.mname, .str soa.rname, .int soa.serial]
  | .SRV => .ok (answers.map (fun r =>
      .str (toString r.priority ++ " " ++ toString r.weight ++ " " ++
        toString r.port ++ " " ++ r.target)))
  | .PTR => .ok (answers.map (fun r => .str r.target))

/-- One iteration of the loop of `analyze_dns_records` (lines 38-61): the
`try` body resolves and renders one type; any exception `e` — from the
resolver or from the SOA indexing — becomes the entry `f"Error: {e}"`. -/
def queryOne (env : Env) (domain : String) (rtype : RecordType) :
    RecordQueryOutcome :=
  match env.resolve domain rtype with
  | .error e => .failure ("Error: " ++ e)
  | .ok answers =>
    match formatAnswers rtype answers with
    | .ok vals => .success vals
    | .error e => .failure ("Error: " ++ e)

/-- The per-domain record map built by `analyze_dns_records` (lines 35-62),
as an association list in the source's iteration order. -/
def analyzeDnsRecords (env : Env) (domain : String) :
    List (RecordType × RecordQueryOutcome) :=
  recordTypes.map (fun rtype => (rtype, queryOne env domain rtype))

/-- The value associated to one record set (what Python's dict holds per
domain in `results`). -/
abbrev DomainRecords := List (RecordType × RecordQueryOutcome)

/-- The `results` mapping of `main` (line 172), domain keyed. -/
abbrev Report := List (String × DomainRecords)

/-- Association-list lookup, the model of a Python dict read. -/
def lookupKey {κ β : Type} [DecidableEq κ] : List (κ × β) → κ → Option β
  | [], _ => none
  | p :: rest, k => if p.1 = k then some p.2 else lookupKey rest k

/-- Association-list update, the model of a Python dict assignment
`m[k] = v`: an existing key keeps its position and gets the new value, a new
key is appended at the end. -/
def dictInsert {κ β : Type} [DecidableEq κ] :
    List (κ × β) → κ → β → List (κ × β)
  | [], k, v => [(k, v)]
  | p :: rest, k, v =>
    if p.1 = k then (k, v) :: rest else p :: dictInsert rest k v

/-- The keys of an association list. -/
def keysOf {κ β : Type} (m : List (κ × β)) : List κ := m.map Prod.fst

/-- `get_nameservers` (lines 65-73): a fresh NS query; on any exception the
function returns the empty list. -/
def get_nameservers (env : Env) (domain : String) : List String :=
  match env.resolve domain RecordType.NS with
  | .ok answers => answers.map (fun s => s.target)
  | .error _ => []

/-- `check_zone_transfer` (lines 75-83): the serialized zone lines when the
transfer goes through, and `[]` on any exception.  The function is total —
it never raises; the empty list is the code's encoding of a denied/protected
transfer. -/
def check_zone_transfer (env : Env) (domain nameserver : String) :
    List String :=
  match env.xfr nameserver domain with
  | .ok lines => lines
  | .error _ => []

/-- The spec's `ZoneTransferResult` tagged union (spec §3), used as the
abstract view of the code's list encoding. -/
inductive ZoneTransferResult
  | Exposed (zoneLines : List String)
  | Protected
  deriving DecidableEq, Repr

/-- Modelled from the spec: the refinement map from the code's list encoding
of a zone-transfer probe to the spec's `Exposed`/`Protected` union — a
nonempty line list is an exposure, the empty list is protected. -/
def interpZT (lines : List String) : ZoneTransferResult :=
  if lines.isEmpty then .Protected else .Exposed lines

/-- `load_inventory` (lines 90-97).  First component: the domain list
(`[line.strip() for line in f if line.strip()]`, empty when the file does
not exist); second component: the log lines this function emits. -/
def load_inventory (env : Env) (path : String) : List String × List String :=
  if env.fileExists path then
    let ds := ((env.fileLines path).map String.trim).filter
      (fun s => !s.isEmpty)
    (ds, ["Loaded inventory of " ++ toString ds.length ++ " domains"])
  else
    ([], ["Inventory file not found: " ++ path])

/-- One iteration of the `as_completed` collection loop of `main`
(lines 176-182), acting on the pair (results dict, error-log lines): a task
that completed normally stores its whole record map under its domain key; a
task whose `future.result()` raised is logged and stores nothing. -/
def scanStep (env : Env) (acc : Report × List String) (d : String) :
    Report × List String :=
  match env.taskCrash d with
  | none => (dictInsert acc.1 d (analyzeDnsRecords env d), acc.2)
  | some e => (acc.1, acc.2 ++ ["Error analyzing " ++ d ++ ": " ++ e])

/-- The parallel scan of `main` (lines 172-182).  `order` is the order in
which `as_completed` yields the futures — an arbitrary permutation of the
submitted domain list.  Returns the `results` dict and the error-log lines. -/
def scanAll (env : Env) (order : List String) : Report × List String :=
  order.foldl (scanStep env) ([], [])

/-- The alert line format of source line 198. -/
def alertLine (dom nsrv : String) : String :=
  "[ALERT] " ++ dom ++ " allows zone transfer on " ++ nsrv

/-- The body-building loop of the alert path (lines 192-198): for every
domain of the results dict, re-derive its nameservers and probe each one;
a truthy (nonempty) probe result appends one alert line. -/
def alertBody (env : Env) (report : Report) : List String :=
  report.flatMap (fun p =>
    (get_nameservers env p.1).filterMap (fun nsrv =>
      if (check_zone_transfer env p.1 nsrv).isEmpty then none
      else some (alertLine p.1 nsrv)))

/-- The alert decision (lines 192-206): `none` when the body list stays
empty (no email sent), otherwise the single email body.  Caution: the join
on line 204 is written as a single-quoted literal whose body begins with a
raw line break — a Python syntax error that makes the whole module fail to
compile (see `line204LiteralTail` and `moduleCompiles`), so this code never
executes.  This definition reads that literal as the evidently intended
newline string (the minimal repair); the process-level truth is
`runScript`. -/
def decideAlert (env : Env) (report : Report) : Option String :=
  let body := alertBody env report
  if body.isEmpty then none else some (String.intercalate "\n" body)

/-- All (domain, nameserver) pairs the alert path enumerates: every key of
the report paired with each of its freshly-resolved nameservers. -/
def allPairs (env : Env) (report : Report) : List (String × String) :=
  report.flatMap (fun p =>
    (get_nameservers env p.1).map (fun nsrv => (p.1, nsrv)))

/-- The command-line arguments relevant to the modelled behavior
(lines 147-159).  `--history`, `--email-security`, `--report`,
`--report-out` and the remaining SMTP fields are parsed by the source but
only drive external collaborators (or nothing at all), so they are omitted.
`none` stands for an absent optional argument. -/
structure Args where
  domain : Option String
  inventory : Option String
  zone_transfer : Bool
  alert_email : Bool
  smtp_server : Option String
  deriving DecidableEq, Repr

/-- The outcome one `main()` call would have, were the module to compile.
`exitCode` is the exit status the call would contribute: the body of `main`
never calls `sys.exit`, it either `return`s early (line 170) or falls
through to the summary print.  In the shipped module `main` never runs at
all — compilation fails on line 204 (see `moduleCompiles`); the
process-level model is `runScript`. -/
structure MainOutcome where
  usagePrinted : Bool
  inventoryLog : List String
  scannedDomains : List String
  report : Report
  scanErrorLog : List String
  alertBodySent : Option String
  summaryPrinted : Bool
  exitCode : Nat
  deriving DecidableEq, Repr

/-- The scan-and-alert pipeline of `main` after the domain list is fixed —
the statement sequence of lines 172-208 as written, which is unreachable in
the shipped module (compilation fails at line 204; see `runScript`).
Report rendering (lines 185-188) and the actual SMTP delivery are external
collaborators and not modelled; `alertBodySent` is the email body handed to
`send_email_notification`, `none` when no email is sent.  Note that
`args.zone_transfer` is read nowhere. -/
def runScanPipeline (env : Env) (args : Args) (domains : List String)
    (ilog : List String) : MainOutcome :=
  let scanned := scanAll env domains
  { usagePrinted := false
    inventoryLog := ilog
    scannedDomains := domains
    report := scanned.1
    scanErrorLog := scanned.2
    alertBodySent :=
      if args.alert_email && args.smtp_server.isSome then
        decideAlert env scanned.1
      else none
    summaryPrinted := true
    exitCode := 0 }

/-- The body of `main` (lines 144-208) as written — never executed in the
shipped module, whose compilation fails at line 204 (see `runScript` for
the process-level behavior).  The domain list is determined by lines
163-170: `--inventory` wins, else the positional domain, else the usage
message `"Specify --inventory or a single domain"` is printed and the
function returns; nothing in the body raises or calls `sys.exit`, so the
exit status this body would contribute is 0. -/
def runMain (env : Env) (args : Args) : MainOutcome :=
  match args.inventory with
  | some path =>
    let loaded := load_inventory env path
    runScanPipeline env args loaded.1 loaded.2
  | none =>
    match args.domain with
    | some d => runScanPipeline env args [d] []
    | none =>
      { usagePrinted := true
        inventoryLog := []
        scannedDomains := []
        report := []
        scanErrorLog := []
        alertBodySent := none
        summaryPrinted := false
        exitCode := 0 }

/-- The `__main__` guard as written (lines 210-212): it calls `main()`
twice in a row.  The guard itself is never reached — the interpreter aborts
while compiling the module (line 204); `runScript` is the process-level
model. -/
def entryPoint (env : Env) (args : Args) : List MainOutcome :=
  [runMain env args, runMain env args]

/-- The characters following the opening quote of the single-quoted string
literal at the end of source line 204 (verified against the raw bytes of
the file): a raw line break, then the text of line 205 — the closing quote
followed by `.join(body)`. -/
def line204LiteralTail : List Char :=
  '\n' :: "\x27.join(body)".toList

/-- Scanner for the body of a Python single-quoted string literal: walks
the characters after the opening quote and reports whether a closing quote
appears before a raw line break.  CPython rejects the module otherwise —
`SyntaxError: unterminated string literal` — during compilation, before any
statement executes.  (Escape sequences need no handling: the scanned text
contains no backslash.) -/
def singleQuoteTerminated : List Char → Bool
  | [] => false
  | c :: rest =>
    if c = '\n' then false
    else if c = '\x27' then true
    else singleQuoteTerminated rest

/-- Whether CPython accepts the module.  The interpreter compiles the whole
file before executing anything; the literal opened at line 204 has a raw
line break as the first character of its body, so compilation fails. -/
def moduleCompiles : Bool := singleQuoteTerminated line204LiteralTail

/-- The observable outcome of one process invocation of the script.
`compiled`: whether module compilation succeeded (no statement of the
module executes when it did not); `mainCalls`: how many times `main()` ran;
`usageMessagePrinted`: whether the usage message of line 169 was printed;
`scannedDomains`: the domains actually scanned; `exitCode`: the
interpreter's exit status (1 on a syntax error); `mainOutcomes`: the
outcomes of the `main()` calls that ran. -/
structure ProcessOutcome where
  compiled : Bool
  mainCalls : Nat
  usageMessagePrinted : Bool
  scannedDomains : List String
  exitCode : Nat
  mainOutcomes : List MainOutcome
  deriving DecidableEq, Repr

/-- One process invocation `python dns_security_suite.py ...`: CPython
first compiles the module, and the unterminated literal at line 204 makes
that fail, so the interpreter prints a syntax-error traceback and exits
with status 1 — argument parsing, scanning, printing and alerting never
happen, whatever the arguments.  Were the module to compile, the
`__main__` guard would call `main()` twice (`entryPoint`). -/
def runScript (env : Env) (args : Args) : ProcessOutcome :=
  if moduleCompiles then
    { compiled := true
      mainCalls := (entryPoint env args).length
      usageMessagePrinted := (runMain env args).usagePrinted
      scannedDomains := (runMain env args).scannedDomains
      exitCode := 0
      mainOutcomes := entryPoint env args }
  else
    { compiled := false
      mainCalls := 0
      usageMessagePrinted := false
      scannedDomains := []
      exitCode := 1
      mainOutcomes := [] }

/-! ### Concrete test environments and arguments -/

/-- An answer with every attribute blank, for building concrete answers. -/
def blankAnswer : Answer :=
  { address := "", exchange := "", text := "", target := "", mname := ""
    rname := "", serial := 0, priority := 0, weight := 0, port := 0 }

/-- A world where every DNS query and zone transfer fails, no task crashes
and no file exists. -/
def env0 : Env :=
  { resolve := fun _ _ => .error "no network"
    xfr := fun _ _ => .error "connection refused"
    taskCrash := fun _ => none
    fileExists := fun _ => false
    fileLines := fun _ => [] }

/-- A world where the nameserver `ns1.test.` permits a zone transfer with
lines `["a.", "b."]` and every other server refuses. -/
def envZT : Env :=
  { env0 with
    xfr := fun nsrv _ =>
      if nsrv = "ns1.test." then .ok ["a.", "b."] else .error "refused" }

/-- A world where the SOA query of any domain returns two answers and every
other query fails. -/
def envSOA : Env :=
  { env0 with
    resolve := fun _ t =>
      match t with
      | .SOA => .ok
          [{ blankAnswer with
              mname := "ns1.example.com.", rname := "admin.example.com."
              serial := 2024 },
            { blankAnswer with
              mname := "ns2.example.com.", rname := "other.example.com."
              serial := 99 }]
      | _ => .error "NXDOMAIN" }

/-- A world where `a.com` has the single nameserver `ns1.a.com.`, which
permits a zone transfer with one line; everything else fails. -/
def envAlert : Env :=
  { env0 with
    resolve := fun dom t =>
      match t with
      | .NS =>
        if dom = "a.com" then .ok [{ blankAnswer with target := "ns1.a.com." }]
        else .error "NXDOMAIN"
      | _ => .error "NXDOMAIN"
    xfr := fun nsrv _ =>
      if nsrv = "ns1.a.com." then .ok ["line1"] else .error "refused" }

/-- A world where `open-empty.ns.` permits a zone transfer whose zone
serializes to zero lines, and every other server refuses. -/
def envC10 : Env :=
  { env0 with
    xfr := fun nsrv _ =>
      if nsrv = "open-empty.ns." then .ok ([] : List String)
      else .error "refused" }

/-- A world where the scan task for `bad.com` raises the unexpected
exception `boom` and every other task completes. -/
def envC4 : Env :=
  { env0 with
    taskCrash := fun d => if d = "bad.com" then some "boom" else none }

/-- An invocation with neither a positional domain nor `--inventory`. -/
def argsNone : Args :=
  { domain := none, inventory := none, zone_transfer := false
    alert_email := false, smtp_server := none }

/-- The check formalizing the claim that the SOA success value is a sequence
of formatted strings: `true` unless the stored SOA outcome is a success list
containing a non-string value. -/
def soaSuccessAllStrings (env : Env) (domain : String) : Bool :=
  match lookupKey (analyzeDnsRecords env domain) RecordType.SOA with
  | some (.success vals) => vals.all PyVal.isStr
  | _ => true

/-! ### Association-list lemmas (model of Python dict reads/writes) -/

section AssocLemmas

variable {κ β : Type} [DecidableEq κ]

theorem lookupKey_dictInsert (m : List (κ × β)) (k d : κ) (v : β) :
    lookupKey (dictInsert m k v) d = if k = d then some v else lookupKey m d := by
  induction m with
  | nil => simp [dictInsert, lookupKey]
  | cons p rest ih =>
    by_cases hpk : p.1 = k
    · by_cases hkd : k = d
      · simp [dictInsert, hpk, lookupKey, hkd]
      · have hpd : p.1 ≠ d := by rw [hpk]; exact hkd
        simp [dictInsert, hpk, lookupKey, hkd, hpd]
    · by_cases hpd : p.1 = d
      · have hkd : k ≠ d := fun h => hpk (hpd.trans h.symm)
        simp [dictInsert, hpk, lookupKey, hpd, hkd, Ne.symm hkd]
      · simp [dictInsert, hpk, lookupKey, hpd, ih]

theorem lookupKey_eq_none_iff (m : List (κ × β)) (d : κ) :
    lookupKey m d = none ↔ d ∉ keysOf m := by
  induction m with
  | nil => simp [lookupKey, keysOf]
  | cons p rest ih =>
    by_cases hpd : p.1 = d
    · simp [lookupKey, keysOf, hpd]
    · simp [lookupKey, keysOf, hpd, Ne.symm hpd, ih]

theorem length_dictInsert_of_none (m : List (κ × β)) (k : κ) (v : β)
    (h : lookupKey m k = none) : (dictInsert m k v).length = m.length + 1 := by
  induction m with
  | nil => simp [dictInsert]
  | cons p rest ih =>
    by_cases hpk : p.1 = k
    · simp [lookupKey, hpk] at h
    · simp only [lookupKey, hpk, if_false] at h
      simp [dictInsert, hpk, ih h]

theorem keysOf_dictInsert_of_none (m : List (κ × β)) (k : κ) (v : β)
    (h : lookupKey m k = none) : keysOf (dictInsert m k v) = keysOf m ++ [k] := by
  induction m with
  | nil => simp [dictInsert, keysOf]
  | cons p rest ih =>
    by_cases hpk : p.1 = k
    · simp [lookupKey, hpk] at h
    · simp only [lookupKey, hpk, if_false] at h
      have hrec := ih h
      simp only [keysOf] at hrec
      simp [dictInsert, hpk, keysOf, hrec]

theorem keysOf_dictInsert_of_some (m : List (κ × β)) (k : κ) (v w : β)
    (h : lookupKey m k = some w) : keysOf (dictInsert m k v) = keysOf m := by
  induction m with
  | nil => simp [lookupKey] at h
  | cons p rest ih =>
    by_cases hpk : p.1 = k
    · simp [dictInsert, hpk, keysOf]
    · simp only [lookupKey, hpk, if_false] at h
      have hrec := ih h
      simp only [keysOf] at hrec
      simp [dictInsert, hpk, keysOf, hrec]

theorem nodup_keysOf_dictInsert (m : List (κ × β)) (k : κ) (v : β)
    (h : (keysOf m).Nodup) : (keysOf (dictInsert m k v)).Nodup := by
  cases hl : lookupKey m k with
  | none =>
    rw [keysOf_dictInsert_of_none m k v hl]
    have hk : k ∉ keysOf m := (lookupKey_eq_none_iff m k).mp hl
    exact ((List.perm_append_singleton k (keysOf m)).nodup_iff).mpr
      (List.nodup_cons.mpr ⟨hk, h⟩)
  | some w =>
    rw [keysOf_dictInsert_of_some m k v w hl]
    exact h

end AssocLemmas

/-! ### Lemmas about the collection loop of `main` (`scanAll`) -/

theorem scanFold_snd (env : Env) (order : List String) :
    ∀ acc : Report × List String,
      (order.foldl (scanStep env) acc).2 =
        acc.2 ++ (order.filter (fun d => (env.taskCrash d).isSome)).map
          (fun d => "Error analyzing " ++ d ++ ": " ++ (env.taskCrash d).getD "") := by
  induction order with
  | nil => intro acc; simp
  | cons d rest ih =>
    intro acc
    cases htc : env.taskCrash d with
    | none => simp [scanStep, htc, ih]
    | some e => simp [scanStep, htc, ih]

theorem scanFold_lookup_ok (env : Env) (order : List String) :
    ∀ (acc : Report × List String) (d : String), env.taskCrash d = none →
      lookupKey (order.foldl (scanStep env) acc).1 d =
        if d ∈ order then some (analyzeDnsRecords env d) else lookupKey acc.1 d := by
  induction order with
  | nil => intro acc d _; simp
  | cons d0 rest ih =>
    intro acc d hd
    by_cases hmem : d ∈ rest
    · simp [ih _ d hd, hmem]
    · rw [List.foldl_cons, ih _ d hd]
      by_cases hdd : d = d0
      · subst hdd
        cases htc0 : env.taskCrash d with
        | none =>
          simp [hmem, scanStep, htc0, lookupKey_dictInsert]
        | some e => rw [hd] at htc0; exact absurd htc0 (by simp)
      · cases htc0 : env.taskCrash d0 with
        | none =>
          have : d0 ≠ d := fun h => hdd h.symm
          simp [hmem, scanStep, htc0, lookupKey_dictInsert, this, hdd]
        | some e =>
          simp [hmem, scanStep, htc0, hdd]

theorem scanFold_lookup_crash (env : Env) (order : List String) :
    ∀ (acc : Report × List String) (d : String), (env.taskCrash d).isSome →
      lookupKey (order.foldl (scanStep env) acc).1 d = lookupKey acc.1 d := by
  induction order with
  | nil => intro acc d _; rfl
  | cons d0 rest ih =>
    intro acc d hd
    rw [List.foldl_cons, ih _ d hd]
    cases htc0 : env.taskCrash d0 with
    | none =>
      have hdd : d0 ≠ d := by
        intro h; rw [h] at htc0; rw [htc0] at hd; simp at hd
      simp [scanStep, htc0, lookupKey_dictInsert, hdd]
    | some e => simp [scanStep, htc0]

theorem scanFold_length (env : Env) (order : List String) :
    ∀ acc : Report × List String, order.Nodup →
      (∀ d ∈ order, lookupKey acc.1 d = none) →
      (order.foldl (scanStep env) acc).1.length =
        acc.1.length +
          (order.filter (fun d => !(env.taskCrash d).isSome)).length := by
  induction order with
  | nil => intro acc _ _; simp
  | cons d0 rest ih =>
    intro acc hnd hpre
    rcases List.nodup_cons.mp hnd with ⟨hd0, hndr⟩
    cases htc0 : env.taskCrash d0 with
    | some e =>
      rw [List.foldl_cons]
      have := ih (scanStep env acc d0) hndr (by
        intro d hdm
        simp [scanStep, htc0]
        exact hpre d (List.mem_cons_of_mem _ hdm))
      rw [this]
      simp [scanStep, htc0]
    | none =>
      rw [List.foldl_cons]
      have hacc0 : lookupKey acc.1 d0 = none := hpre d0 (List.mem_cons_self _ _)
      have := ih (scanStep env acc d0) hndr (by
        intro d hdm
        have hne : d0 ≠ d := fun h => hd0 (h ▸ hdm)
        simp [scanStep, htc0, lookupKey_dictInsert, hne]
        exact hpre d (List.mem_cons_of_mem _ hdm))
      rw [this]
      have hlen : (scanStep env acc d0).1.length = acc.1.length + 1 := by
        simp [scanStep, htc0, length_dictInsert_of_none _ _ _ hacc0]
      rw [hlen]
      simp [htc0]
      omega

theorem scanFold_keys_nodup (env : Env) (order : List String) :
    ∀ acc : Report × List String, (keysOf acc.1).Nodup →
      (keysOf (order.foldl (scanStep env) acc).1).Nodup := by
  induction order with
  | nil => intro acc h; exact h
  | cons d0 rest ih =>
    intro acc h
    rw [List.foldl_cons]
    apply ih
    cases htc0 : env.taskCrash d0 with
    | none => simpa [scanStep, htc0] using nodup_keysOf_dictInsert acc.1 d0 _ h
    | some e => simpa [scanStep, htc0] using h

/-! ### Lemmas about the alert path and the record resolver -/

theorem length_filter_split {α : Type} (l : List α) (p : α → Bool) :
    (l.filter p).length + (l.filter (fun a => !(p a))).length = l.length := by
  induction l with
  | nil => rfl
  | cons a rest ih =>
    cases hpa : p a <;> simp [List.filter_cons, hpa] <;> omega

theorem lookupKey_analyze (env : Env) (domain : String) (t : RecordType) :
    lookupKey (analyzeDnsRecords env domain) t = some (queryOne env domain t) := by
  cases t <;> rfl

theorem alertInner_eq (env : Env) (dom : String) (ns : List String) :
    ns.filterMap (fun nsrv =>
        if (check_zone_transfer env dom nsrv).isEmpty then none
        else some (alertLine dom nsrv)) =
      ((ns.map (fun nsrv => (dom, nsrv))).filter
        (fun pr => !(check_zone_transfer env pr.1 pr.2).isEmpty)).map
        (fun pr => alertLine pr.1 pr.2) := by
  induction ns with
  | nil => rfl
  | cons n rest ih =>
    cases hz : (check_zone_transfer env dom n).isEmpty with
    | true =>
      have hz2 : check_zone_transfer env dom n = [] := List.isEmpty_iff.mp hz
      simp only [List.isEmpty_iff] at ih
      simp [List.filterMap_cons, List.filter_cons, hz, hz2, ih]
    | false =>
      have hz2 : ¬check_zone_transfer env dom n = [] := fun h => by
        simp [h] at hz
      simp only [List.isEmpty_iff] at ih
      simp [List.filterMap_cons, List.filter_cons, hz, hz2, ih]

theorem alertBody_eq (env : Env) (report : Report) :
    alertBody env report =
      ((allPairs env report).filter
        (fun pr => !(check_zone_transfer env pr.1 pr.2).isEmpty)).map
        (fun pr => alertLine pr.1 pr.2) := by
  induction report with
  | nil => rfl
  | cons p rest ih =>
    simp only [alertBody, allPairs, List.flatMap_cons, List.filter_append,
      List.map_append] at ih ⊢
    rw [ih, alertInner_eq env p.1]

theorem decideAlert_eq_none_iff (env : Env) (report : Report) :
    decideAlert env report = none ↔ alertBody env report = [] := by
  rw [decideAlert]
  by_cases hem : (alertBody env report).isEmpty
  · simp [hem, List.isEmpty_iff.mp hem]
  · simp only [hem, Bool.false_eq_true, if_false]
    constructor
    · intro h; exact absurd h (by simp)
    · intro h; exact absurd (by simp [h] : (alertBody env report).isEmpty = true) hem

/-! ### Claim theorems -/

/-- Claim C1 (code bug): no invocation with `--zone-transfer` ever probes a
nameserver or builds a `transfers` map.  The module fails to compile — the
literal opened at line 204 is unterminated before a raw line break — so the
process exits 1 with zero `main()` calls and zero scanned domains, making
the outcome identical for any value of the flag; and independently, even in
the never-executed body of `main` as written, `args.zone_transfer` (parsed
at line 149) is read nowhere, so that body too is identical for any value
of the flag and contains no zone-transfer step in its scan. -/
theorem zone_transfer_flag_ignored (env : Env) (args : Args) (b : Bool) :
    runScript env { args with zone_transfer := b } = runScript env args ∧
    (runScript env args).exitCode = 1 ∧
    (runScript env args).mainCalls = 0 ∧
    (runScript env args).scannedDomains = [] ∧
    runMain env { args with zone_transfer := b } = runMain env args := by
  have hm : runMain env { args with zone_transfer := b } = runMain env args := by
    rcases args with ⟨d, i, z, a, s⟩
    cases i <;> cases d <;> rfl
  exact ⟨rfl, rfl, rfl, rfl, hm⟩

/-- Claim C2: for every world and every domain, `analyze_dns_records`
returns a mapping whose keys are exactly the nine fixed record types (hence
9 entries), each holding the outcome of that type's own query; a resolution
error for one type is stored as a failure for that type only, and the entry
of any type depends only on that type's own query outcome, so one type's
error cannot abort the other eight. -/
theorem analyze_dns_records_complete (env envB : Env) (domain : String) :
    (analyzeDnsRecords env domain).map Prod.fst = recordTypes ∧
    (analyzeDnsRecords env domain).length = 9 ∧
    (∀ t : RecordType,
      lookupKey (analyzeDnsRecords env domain) t = some (queryOne env domain t)) ∧
    (∀ (t : RecordType) (e : String), env.resolve domain t = .error e →
      lookupKey (analyzeDnsRecords env domain) t =
        some (.failure ("Error: " ++ e))) ∧
    (∀ t : RecordType, env.resolve domain t = envB.resolve domain t →
      lookupKey (analyzeDnsRecords env domain) t =
        lookupKey (analyzeDnsRecords envB domain) t) := by
  refine ⟨?_, rfl, lookupKey_analyze env domain, ?_, ?_⟩
  · simp [analyzeDnsRecords, recordTypes]
  · intro t e he
    rw [lookupKey_analyze]
    simp [queryOne, he]
  · intro t he
    rw [lookupKey_analyze, lookupKey_analyze]
    simp [queryOne, he]

/-- Claim C2 witness: in a world where every query fails with `no network`,
the MX entry exists and stores that failure. -/
theorem analyze_dns_records_complete_witness :
    lookupKey (analyzeDnsRecords env0 "example.com") RecordType.MX =
      some (RecordQueryOutcome.failure "Error: no network") :=
  (analyze_dns_records_complete env0 env0 "example.com").2.2.2.1
    RecordType.MX "no network" rfl

/-- Claim C3: `check_zone_transfer` never raises (it is a total function);
on any failure of the transfer pipeline it returns the empty list — the
code's encoding of `Protected`, never an exposure — and when the server
permits the transfer it returns exactly the zone's serialized text lines,
an `Exposed` value under the spec's tagged-union view whenever the zone
serializes to at least one line. -/
theorem check_zone_transfer_spec (env : Env) (domain nameserver : String) :
    (∀ e : String, env.xfr nameserver domain = .error e →
      check_zone_transfer env domain nameserver = [] ∧
      interpZT (check_zone_transfer env domain nameserver) = .Protected) ∧
    (∀ lines : List String, env.xfr nameserver domain = .ok lines →
      check_zone_transfer env domain nameserver = lines ∧
      (lines ≠ [] →
        interpZT (check_zone_transfer env domain nameserver) = .Exposed lines)) := by
  constructor
  · intro e he
    refine ⟨by simp [check_zone_transfer, he], ?_⟩
    simp [check_zone_transfer, he, interpZT]
  · intro lines hl
    refine ⟨by simp [check_zone_transfer, hl], ?_⟩
    intro hne
    simp [check_zone_transfer, hl, interpZT, hne]

/-- Claim C3 witness: a server that permits the transfer with lines
`["a.", "b."]` yields those lines (an `Exposed` view), and a refusing
server yields `[]` (a `Protected` view). -/
theorem check_zone_transfer_spec_witness :
    (check_zone_transfer envZT "test.com" "ns1.test." = ["a.", "b."] ∧
      interpZT (check_zone_transfer envZT "test.com" "ns1.test.") =
        .Exposed ["a.", "b."]) ∧
    (check_zone_transfer envZT "test.com" "ns2.test." = [] ∧
      interpZT (check_zone_transfer envZT "test.com" "ns2.test.") =
        .Protected) := by
  have h1 := (check_zone_transfer_spec envZT "test.com" "ns1.test.").2
    ["a.", "b."] rfl
  have h2 := (check_zone_transfer_spec envZT "test.com" "ns2.test.").1
    "refused" rfl
  exact ⟨⟨h1.1, h1.2 (by decide)⟩, h2⟩

/-- Claim C7 counterexample: in a world whose SOA query succeeds with serial
2024, the stored SOA success value is not a sequence of strings — the source
(line 53) applies `str(...)` to `mname` and `rname` but stores `soa.serial`
as the raw integer, so the third element is an int, not a formatted
string. -/
theorem soa_value_not_all_strings :
    soaSuccessAllStrings envSOA "example.com" = false := by decide

/-- Claim C7 amended: for every domain whose SOA query succeeds with at
least one answer, the SOA entry is the ordered triple built from the first
answer only — `[str(mname), str(rname), serial]`, the serial kept as an
integer rather than a formatted string — and further answers are ignored,
not an error. -/
theorem analyze_soa_first_answer (env : Env) (domain : String)
    (a : Answer) (rest : List Answer)
    (h : env.resolve domain RecordType.SOA = .ok (a :: rest)) :
    lookupKey (analyzeDnsRecords env domain) RecordType.SOA =
      some (.success [.str a.mname, .str a.rname, .int a.serial]) := by
  rw [lookupKey_analyze]
  simp [queryOne, h, formatAnswers]

/-- Claim C7 witness: with two SOA answers, the stored value comes from the
first one only. -/
theorem analyze_soa_first_answer_witness :
    lookupKey (analyzeDnsRecords envSOA "example.com") RecordType.SOA =
      some (.success [.str "ns1.example.com.", .str "admin.example.com.",
        .int 2024]) :=
  analyze_soa_first_answer envSOA "example.com"
    { blankAnswer with
        mname := "ns1.example.com.", rname := "admin.example.com."
        serial := 2024 }
    [{ blankAnswer with
        mname := "ns2.example.com.", rname := "other.example.com."
        serial := 99 }] rfl

/-- Claim C4: for a submitted set of N unique domains of which K raise an
unexpected exception while being scanned, the collection loop of `main` —
under any completion order of the futures — catches each failure, stores
one log line for it, omits the crashed domain from the results mapping, and
returns exactly N−K entries; every domain whose task completed is present
with its own record map, so one domain's error never aborts the others. -/
theorem scanAll_isolates_failures (env : Env) (domains order : List String)
    (hperm : List.Perm order domains) (hnd : domains.Nodup) :
    (scanAll env order).1.length =
      domains.length -
        (domains.filter (fun d => (env.taskCrash d).isSome)).length ∧
    (∀ d, d ∈ domains → env.taskCrash d = none →
      lookupKey (scanAll env order).1 d = some (analyzeDnsRecords env d)) ∧
    (∀ d e, d ∈ domains → env.taskCrash d = some e →
      lookupKey (scanAll env order).1 d = none ∧
      ("Error analyzing " ++ d ++ ": " ++ e) ∈ (scanAll env order).2) := by
  have hordnd : order.Nodup := hperm.nodup_iff.mpr hnd
  refine ⟨?_, ?_, ?_⟩
  · have hlen := scanFold_length env order ([], []) hordnd (by intro d _; rfl)
    rw [scanAll, hlen]
    have hpf : (order.filter (fun d => !(env.taskCrash d).isSome)).length =
        (domains.filter (fun d => !(env.taskCrash d).isSome)).length :=
      (hperm.filter _).length_eq
    have hsum := length_filter_split domains (fun d => (env.taskCrash d).isSome)
    simp only [List.length_nil]
    omega
  · intro d hd htc
    have hmem : d ∈ order := hperm.mem_iff.mpr hd
    have := scanFold_lookup_ok env order ([], []) d htc
    rw [scanAll, this, if_pos hmem]
  · intro d e hd htc
    have hmem : d ∈ order := hperm.mem_iff.mpr hd
    constructor
    · have := scanFold_lookup_crash env order ([], []) d (by simp [htc])
      rw [scanAll, this]; rfl
    · have hlog := scanFold_snd env order ([], [])
      rw [scanAll, hlog]
      simp only [List.nil_append]
      apply List.mem_map.mpr
      refine ⟨d, List.mem_filter.mpr ⟨hmem, by simp [htc]⟩, by simp [htc]⟩

/-- Claim C4 witness: two domains, of which `bad.com` raises `boom`: the
report has exactly one entry and the failure is logged. -/
theorem scanAll_isolates_failures_witness :
    (scanAll envC4 ["good.com", "bad.com"]).1.length = 1 ∧
    ("Error analyzing " ++ "bad.com" ++ ": " ++ "boom")
      ∈ (scanAll envC4 ["good.com", "bad.com"]).2 := by
  have h := scanAll_isolates_failures envC4 ["good.com", "bad.com"]
    ["good.com", "bad.com"] (List.Perm.refl _) (by decide)
  constructor
  · rw [h.1]; decide
  · exact (h.2.2 "bad.com" "boom" (by decide) (by decide)).2

/-- Claim C5 (code bug): the alert decision can never produce a message
body — the very join that would build it (line 204) opens a single-quoted
literal whose body begins with a raw line break, a syntax error that aborts
compilation of the module, so every invocation exits 1 without a single
`main()` call.  Under the minimal repair (the literal read as the evidently
intended newline string), the decision as written does satisfy the claim:
no message exactly when no (domain, nameserver) pair of the report shows a
permitted (truthy) zone-transfer probe, otherwise exactly one body whose
lines are precisely one per exposed pair, each formatted as
`[ALERT] domain allows zone transfer on nameserver`, joined by newlines. -/
theorem decideAlert_spec (env : Env) (args : Args) (report : Report) :
    (singleQuoteTerminated line204LiteralTail = false ∧
      (runScript env args).exitCode = 1 ∧
      (runScript env args).mainCalls = 0) ∧
    (decideAlert env report = none ↔
      ∀ pr ∈ allPairs env report, check_zone_transfer env pr.1 pr.2 = []) ∧
    (∀ msg, decideAlert env report = some msg →
      msg = String.intercalate "\n"
        (((allPairs env report).filter
          (fun pr => !(check_zone_transfer env pr.1 pr.2).isEmpty)).map
          (fun pr => alertLine pr.1 pr.2))) := by
  have hbody := alertBody_eq env report
  refine ⟨⟨rfl, rfl, rfl⟩, ?_, ?_⟩
  · rw [decideAlert_eq_none_iff, hbody, List.map_eq_nil_iff, List.filter_eq_nil_iff]
    constructor
    · intro h pr hpr
      have := h pr hpr
      simpa [List.isEmpty_iff] using this
    · intro h pr hpr
      simp [List.isEmpty_iff, h pr hpr]
  · intro msg hmsg
    rw [decideAlert] at hmsg
    by_cases hem : (alertBody env report).isEmpty
    · simp [hem] at hmsg
    · simp only [hem, Bool.false_eq_true, if_false, Option.some.injEq] at hmsg
      rw [← hmsg, hbody]

/-- Claim C5 witness: the syntax-error facts at a concrete invocation, and
— under the minimal repair — a report with the single domain `a.com`, whose
only nameserver permits the transfer, yielding exactly the one formatted
line. -/
theorem decideAlert_spec_witness :
    (runScript env0 argsNone).mainCalls = 0 ∧
    decideAlert envAlert [("a.com", [])] =
      some "[ALERT] a.com allows zone transfer on ns1.a.com." ∧
    "[ALERT] a.com allows zone transfer on ns1.a.com." =
      String.intercalate "\n"
        (((allPairs envAlert [("a.com", [])]).filter
          (fun pr => !(check_zone_transfer envAlert pr.1 pr.2).isEmpty)).map
          (fun pr => alertLine pr.1 pr.2)) := by
  have h1 : decideAlert envAlert [("a.com", [])] =
      some "[ALERT] a.com allows zone transfer on ns1.a.com." := by decide
  exact ⟨(decideAlert_spec env0 argsNone [("a.com", [])]).1.2.2, h1,
    (decideAlert_spec envAlert argsNone [("a.com", [])]).2.2 _ h1⟩

/-- Claim C6 counterexample: invoked with neither a positional domain nor
`--inventory`, the process reports no usage error at all — the interpreter
aborts while compiling the module (the unterminated literal of line 204)
and prints only a syntax-error traceback.  The exit status is indeed 1 and
nothing is scanned, but the claimed human-readable usage report never
happens: the usage print of line 169 is never executed. -/
theorem usage_error_never_reported :
    (runScript env0 argsNone).usageMessagePrinted = false ∧
    (runScript env0 argsNone).compiled = false ∧
    (runScript env0 argsNone).exitCode = 1 ∧
    (runScript env0 argsNone).scannedDomains = [] ∧
    (runScript env0 argsNone).mainCalls = 0 := ⟨rfl, rfl, rfl, rfl, rfl⟩

/-- Claim C6 amended: every invocation — usage-erroneous or not, inventory
present or missing — aborts during module compilation with a syntax-error
traceback and exit status 1; no usage message is printed and no scan is
attempted.  The usage handling written in `main` is unreachable; had the
module compiled, the no-domain case would print the usage message and
return with the interpreter exiting 0 (not non-zero), and a missing
inventory file would only be logged, the scan loop running over an empty
domain list with the completion summary printed and exit status 0. -/
theorem usage_and_missing_inventory_behavior (env : Env) (args : Args) :
    ((runScript env args).exitCode = 1 ∧
      (runScript env args).usageMessagePrinted = false ∧
      (runScript env args).scannedDomains = [] ∧
      (runScript env args).mainCalls = 0) ∧
    (args.inventory = none → args.domain = none →
      (runMain env args).usagePrinted = true ∧
      (runMain env args).scannedDomains = [] ∧
      (runMain env args).report = [] ∧
      (runMain env args).summaryPrinted = false ∧
      (runMain env args).exitCode = 0) ∧
    (∀ path, args.inventory = some path → env.fileExists path = false →
      (runMain env args).usagePrinted = false ∧
      (runMain env args).scannedDomains = [] ∧
      (runMain env args).report = [] ∧
      ("Inventory file not found: " ++ path) ∈ (runMain env args).inventoryLog ∧
      (runMain env args).summaryPrinted = true ∧
      (runMain env args).exitCode = 0) := by
  refine ⟨⟨rfl, rfl, rfl, rfl⟩, ?_, ?_⟩
  · intro hi hd
    simp [runMain, hi, hd]
  · intro path hi hex
    simp [runMain, hi, load_inventory, hex, runScanPipeline, scanAll]

/-- Claim C6 witness: the process-level facts and the two unreachable-body
branches at concrete inputs. -/
theorem usage_and_missing_inventory_witness :
    (runScript env0 argsNone).exitCode = 1 ∧
    (runMain env0 argsNone).usagePrinted = true ∧
    (runMain env0 { argsNone with inventory := some "inv.txt" }).summaryPrinted
      = true := by
  refine ⟨(usage_and_missing_inventory_behavior env0 argsNone).1.1,
    ((usage_and_missing_inventory_behavior env0 argsNone).2.1 rfl rfl).1, ?_⟩
  exact ((usage_and_missing_inventory_behavior env0
    { argsNone with inventory := some "inv.txt" }).2.2 "inv.txt" rfl
    rfl).2.2.2.2.1

/-- Claim C8: for any input list of domains (duplicates allowed, all tasks
completing) and any completion order, the results mapping has no duplicate
keys, its key set is exactly the set of distinct input domains, and each
key's value is the whole record map of one scan of that domain — a dict
assignment publishes a complete value per key, so last-writer-wins cannot
interleave fields of two scans. -/
theorem scanAll_dedupes_domains (env : Env) (domains order : List String)
    (hperm : List.Perm order domains)
    (hok : ∀ d ∈ domains, env.taskCrash d = none) :
    (keysOf (scanAll env order).1).Nodup ∧
    (∀ d, d ∈ domains →
      lookupKey (scanAll env order).1 d = some (analyzeDnsRecords env d)) ∧
    (∀ d, d ∈ keysOf (scanAll env order).1 ↔ d ∈ domains) := by
  refine ⟨scanFold_keys_nodup env order ([], []) (by simp [keysOf]), ?_, ?_⟩
  · intro d hd
    have := scanFold_lookup_ok env order ([], []) d (hok d hd)
    rw [scanAll, this, if_pos (hperm.mem_iff.mpr hd)]
  · intro d
    constructor
    · intro hk
      by_contra hnd
      have hno : d ∉ order := fun h => hnd (hperm.mem_iff.mp h)
      have hnone : lookupKey (scanAll env order).1 d = none := by
        cases htc : env.taskCrash d with
        | none =>
          have := scanFold_lookup_ok env order ([], []) d htc
          rw [scanAll, this, if_neg hno]; rfl
        | some e =>
          have := scanFold_lookup_crash env order ([], []) d (by simp [htc])
          rw [scanAll, this]; rfl
      exact absurd hk ((lookupKey_eq_none_iff _ d).mp hnone)
    · intro hd
      have hs := scanFold_lookup_ok env order ([], []) d (hok d hd)
      by_contra hk
      have := (lookupKey_eq_none_iff (scanAll env order).1 d).mpr hk
      rw [scanAll, hs, if_pos (hperm.mem_iff.mpr hd)] at this
      exact absurd this (by simp)

/-- Claim C8 witness: submitting `["x.com", "x.com"]` yields a report with
nodup keys whose only key `x.com` holds the whole record map of one scan. -/
theorem scanAll_dedupes_domains_witness :
    (keysOf (scanAll env0 ["x.com", "x.com"]).1).Nodup ∧
    lookupKey (scanAll env0 ["x.com", "x.com"]).1 "x.com" =
      some (analyzeDnsRecords env0 "x.com") := by
  have h := scanAll_dedupes_domains env0 ["x.com", "x.com"] ["x.com", "x.com"]
    (List.Perm.refl _) (fun _ _ => rfl)
  exact ⟨h.1, h.2.1 "x.com" (by decide)⟩

/-- Claim C9 (code bug): the scan pipeline runs zero times per invocation,
not once — the interpreter aborts while compiling the module (the
unterminated literal of line 204) and never reaches the `__main__` guard,
so `main()` is called zero times and no ScanReport is ever built; and the
guard as written (lines 210-212) calls `main()` twice in a row, so even
under the minimal repair of line 204 the pipeline would run, and the report
be rebuilt, twice per invocation — on no reading is it built exactly
once. -/
theorem entry_point_never_runs (env : Env) (args : Args) :
    (runScript env args).mainCalls = 0 ∧
    (runScript env args).exitCode = 1 ∧
    moduleCompiles = false ∧
    entryPoint env args = [runMain env args, runMain env args] :=
  ⟨rfl, rfl, rfl, rfl⟩

/-- Claim C10: a nameserver that permits the transfer of a zone serializing
to zero lines makes `check_zone_transfer` return `[]` — the very value
returned for a refused transfer — so under the spec's tagged view both are
`Protected`, and the alert loop appends no line for such a pair. -/
theorem empty_zone_collapses_to_protected (env : Env)
    (d nsrv dB nsB e : String)
    (hok : env.xfr nsrv d = .ok []) (herr : env.xfr nsB dB = .error e) :
    check_zone_transfer env d nsrv = [] ∧
    check_zone_transfer env d nsrv = check_zone_transfer env dB nsB ∧
    interpZT (check_zone_transfer env d nsrv) = .Protected ∧
    (if (check_zone_transfer env d nsrv).isEmpty then none
      else some (alertLine d nsrv)) = none := by
  have h1 : check_zone_transfer env d nsrv = [] := by
    simp [check_zone_transfer, hok]
  have h2 : check_zone_transfer env dB nsB = [] := by
    simp [check_zone_transfer, herr]
  exact ⟨h1, by rw [h1, h2], by rw [h1]; rfl, by rw [h1]; rfl⟩

/-- Claim C10 witness: an exposed-but-empty zone on `open-empty.ns.` is
indistinguishable from the refusal on `closed.ns.`. -/
theorem empty_zone_collapses_witness :
    check_zone_transfer envC10 "d.com" "open-empty.ns." = [] ∧
    check_zone_transfer envC10 "d.com" "open-empty.ns." =
      check_zone_transfer envC10 "d.com" "closed.ns." := by
  have h := empty_zone_collapses_to_protected envC10 "d.com" "open-empty.ns."
    "d.com" "closed.ns." "refused" rfl rfl
  exact ⟨h.1, h.2.1⟩

end DnsSuite
